import Mathlib

/-!
Verification of the `Sound` playback handle of the ears audio library
(`src/sound.rs`) against its natural-language specification.

The `Sound` type wraps a single OpenAL source holding one fully decoded
buffer.  Its public operations are thin forwards to the OpenAL device
binding, each guarded by the `check_openal_context!` macro which returns a
documented default value when the device context is invalid.

The OpenAL device binding and the `check_openal_context!` macro live in
modules of the repository that are not part of the analysed sources, so
their behaviour is modelled from the specification (definitions marked
`Modelled from the spec:`).  Everything else is translated directly from
`src/sound.rs`.
-/

namespace Ears

/-- Transport state of a source, `states::State` in the source
(`Initial`, `Playing`, `Paused`, `Stopped`). -/
inductive State where
  | Initial
  | Playing
  | Paused
  | Stopped
deriving DecidableEq, Repr

/-- The raw OpenAL boolean value `ffi::ALC_TRUE`. -/
def ALC_TRUE : Int := 1

/-- The raw OpenAL boolean value `ffi::ALC_FALSE`. -/
def ALC_FALSE : Int := 0

/-- Decoder-reported metadata of a sound resource: `frames` is an `i64`
frame count and `samplerate` an `i32` sample rate, as reported by
`sound_data::get_sndinfo`. -/
structure SndInfo where
  frames : Int
  samplerate : Int
deriving DecidableEq, Repr

/-- The decoded sound data shared between Sounds (`SoundData`): the OpenAL
buffer id it owns (`sound_data::get_buffer`) and its decoder metadata. -/
structure SoundData where
  buffer : Int
  sndinfo : SndInfo
deriving DecidableEq, Repr

/-- Device-side state of one OpenAL source: its transport state
(`AL_SOURCE_STATE`), sample offset (`AL_SAMPLE_OFFSET`, an `i32`), the raw
looping property (`AL_LOOPING`, an `i32`), the bound buffer (`AL_BUFFER`)
and the gain (`AL_GAIN`). -/
structure ALSource where
  srcState : State
  sampleOffset : Int
  looping : Int
  buffer : Int
  gain : Float

/-- Modelled from the spec: the device binding primitive `play(source)`
behind `al::alSourcePlay`.  Playing a Paused source resumes at the frozen
sample offset; playing while already Playing is a no-op; playing from
Initial or Stopped restarts at frame 0. -/
def alSourcePlay (s : ALSource) : ALSource :=
  match s.srcState with
  | State.Paused => { s with srcState := State.Playing }
  | State.Playing => s
  | State.Initial => { s with srcState := State.Playing, sampleOffset := 0 }
  | State.Stopped => { s with srcState := State.Playing, sampleOffset := 0 }

/-- Modelled from the spec: the device binding primitive `pause(source)`
behind `al::alSourcePause`.  The device retains the current playback
position so a later play resumes exactly where audio stopped. -/
def alSourcePause (s : ALSource) : ALSource :=
  { s with srcState := State.Paused }

/-- Modelled from the spec: the device binding primitive `stop(source)`
behind `al::alSourceStop`.  Stopping rewinds the playback position to
frame 0, so a later play restarts from the beginning. -/
def alSourceStop (s : ALSource) : ALSource :=
  { s with srcState := State.Stopped, sampleOffset := 0 }

/-- The `Sound` struct: the OpenAL source identifier and the associated
shared `SoundData`. -/
structure Sound where
  al_source : Nat
  sound_data : SoundData
deriving DecidableEq, Repr

/-- `Sound::play`.  `check_openal_context!(())` makes the call a no-op when
the device context is invalid (`ctx = false`); otherwise it forwards to
`al::alSourcePlay`. -/
def Sound.play (ctx : Bool) (s : ALSource) : ALSource :=
  if ctx then alSourcePlay s else s

/-- `Sound::pause`: no-op without a valid context, otherwise forwards to
`al::alSourcePause`. -/
def Sound.pause (ctx : Bool) (s : ALSource) : ALSource :=
  if ctx then alSourcePause s else s

/-- `Sound::stop`: no-op without a valid context, otherwise forwards to
`al::alSourceStop`. -/
def Sound.stop (ctx : Bool) (s : ALSource) : ALSource :=
  if ctx then alSourceStop s else s

/-- `Sound::get_state`: returns `Initial` when the device context is
invalid, otherwise reads `AL_SOURCE_STATE` from the device. -/
def Sound.get_state (ctx : Bool) (s : ALSource) : State :=
  if ctx then s.srcState else State.Initial

/-- `Sound::is_playing`: `match self.get_state() { Playing => true,
_ => false }`. -/
def Sound.is_playing (ctx : Bool) (s : ALSource) : Bool :=
  match Sound.get_state ctx s with
  | State.Playing => true
  | _ => false

/-- `Sound::set_offset`: writes `AL_SAMPLE_OFFSET`; no-op without a valid
context. -/
def Sound.set_offset (ctx : Bool) (s : ALSource) (offset : Int) : ALSource :=
  if ctx then { s with sampleOffset := offset } else s

/-- `Sound::get_offset`: returns 0 when the device context is invalid,
otherwise reads `AL_SAMPLE_OFFSET`. -/
def Sound.get_offset (ctx : Bool) (s : ALSource) : Int :=
  if ctx then s.sampleOffset else 0

/-- `Sound::set_looping`: writes `ALC_TRUE` or `ALC_FALSE` (as `i32`) to
`AL_LOOPING`; no-op without a valid context. -/
def Sound.set_looping (ctx : Bool) (s : ALSource) (looping : Bool) : ALSource :=
  if ctx then
    { s with looping := if looping then ALC_TRUE else ALC_FALSE }
  else s

/-- `Sound::is_looping`: returns `false` when the device context is
invalid, otherwise reads the raw `AL_LOOPING` value and maps `ALC_TRUE`
to `true` and `ALC_FALSE` to `false`; any other raw value hits the
source's `unreachable!()` panic, modelled as `none`. -/
def Sound.is_looping (ctx : Bool) (s : ALSource) : Option Bool :=
  if ctx then
    if s.looping = ALC_TRUE then some true
    else if s.looping = ALC_FALSE then some false
    else none
  else some false

/-- `Sound::set_volume`: writes `AL_GAIN`; no-op without a valid
context. -/
def Sound.set_volume (ctx : Bool) (s : ALSource) (volume : Float) : ALSource :=
  if ctx then { s with gain := volume } else s

/-- `Sound::get_volume`: returns 0.0 when the device context is invalid,
otherwise reads `AL_GAIN`. -/
def Sound.get_volume (ctx : Bool) (s : ALSource) : Float :=
  if ctx then s.gain else 0.0

/-- `Sound::set_datas`: no-op without a valid context; early-returns while
the sound is playing; otherwise rebinds the device buffer to the new
data's buffer and replaces the stored `sound_data`. -/
def Sound.set_datas (ctx : Bool) (snd : Sound) (src : ALSource)
    (sound_data : SoundData) : Sound × ALSource :=
  if ctx then
    if Sound.is_playing ctx src then (snd, src)
    else ({ snd with sound_data := sound_data },
          { src with buffer := sound_data.buffer })
  else (snd, src)

/-- Rust's `as u64` cast applied to a signed integer value: reduce modulo
`2 ^ 64` (sign extension followed by reinterpretation). -/
def u64cast (x : Int) : Nat :=
  (x % (2 : Int) ^ 64).toNat

/-- Rust's `std::time::Duration::new`: carries whole seconds out of the
nanosecond argument. -/
structure RustDuration where
  secs : Nat
  nanos : Nat
deriving DecidableEq, Repr

/-- `Duration::new(secs, nanos)` normalisation. -/
def durationNew (secs nanos : Nat) : RustDuration :=
  ⟨secs + nanos / 1000000000, nanos % 1000000000⟩

/-- `Sound::get_duration`: reads the decoder metadata out of the shared
`sound_data`, casts `frames` and `samplerate` to `u64`, and computes
`Duration::new(frames / sample_rate,
(frames % sample_rate * 1_000_000_000 / sample_rate) as u32)`.
The two `u64` divisions panic in Rust when `sample_rate` is zero; the
panic is modelled as `none`.  The `u64` multiplication wraps modulo
`2 ^ 64` and the `as u32` cast reduces modulo `2 ^ 32`, as in the
source. -/
def Sound.get_duration (snd : Sound) : Option RustDuration :=
  let frames := u64cast snd.sound_data.sndinfo.frames
  let sample_rate := u64cast snd.sound_data.sndinfo.samplerate
  if sample_rate = 0 then none
  else
    let seconds := frames / sample_rate
    let nanoseconds := frames % sample_rate * 1000000000 % 2 ^ 64 / sample_rate
    some (durationNew seconds (nanoseconds % 2 ^ 32))

/-- Errors surfaced by `Sound` construction (`error::SoundError`): the
variants exercised by `sound.rs` plus the decoder-side errors propagated
from `SoundData::new`. -/
inductive SoundError where
  | ResourceNotFound
  | UnsupportedFormat
  | InvalidOpenALContext
  | InternalOpenALError (msg : String)
deriving DecidableEq, Repr

/-- Device-side allocation state used by construction: whether the OpenAL
context is valid, which buffer ids the device accepts, the set of
currently generated source ids, the next fresh id, and the pending OpenAL
error flag read by `al::openal_has_error`. -/
structure ALAlloc where
  ctxValid : Bool
  validBuffers : List Int
  allocated : List Nat
  nextId : Nat
  errorFlag : Option String
deriving DecidableEq, Repr

/-- Modelled from the spec: `al::alGenSources(1, &mut source_id)` —
generates a fresh device source and returns its id. -/
def alGenSources (st : ALAlloc) : Nat × ALAlloc :=
  (st.nextId,
   { st with allocated := st.nextId :: st.allocated, nextId := st.nextId + 1 })

/-- Modelled from the spec: `al::alSourcei(source, AL_BUFFER, buffer)` —
binding a buffer the device does not accept raises an OpenAL error,
recorded in the pending error flag. -/
def alSourceiBuffer (st : ALAlloc) (buffer : Int) : ALAlloc :=
  if buffer ∈ st.validBuffers then st
  else { st with errorFlag := some "AL_INVALID_VALUE" }

/-- Modelled from the spec: `al::openal_has_error()` — reads and clears
the pending OpenAL error. -/
def openal_has_error (st : ALAlloc) : Option String × ALAlloc :=
  (st.errorFlag, { st with errorFlag := none })

/-- `Sound::new_with_data`: checks the OpenAL context, generates a source,
binds the data's buffer to it, and returns an error if an OpenAL error is
pending — without deleting the source that was just generated. -/
def Sound.new_with_data (st : ALAlloc) (sound_data : SoundData) :
    Except SoundError Sound × ALAlloc :=
  if st.ctxValid then
    let genRes := alGenSources st
    let source_id := genRes.1
    let st1 := alSourceiBuffer genRes.2 sound_data.buffer
    let errRes := openal_has_error st1
    match errRes.1 with
    | some err => (Except.error (SoundError.InternalOpenALError err), errRes.2)
    | none =>
      (Except.ok { al_source := source_id, sound_data := sound_data }, errRes.2)
  else (Except.error SoundError.InvalidOpenALContext, st)

/-- Modelled from the spec: `SoundData::new(path)` delegates to the
decoder adapter, which opens the resource and reports `ResourceNotFound`
or `UnsupportedFormat` on failure; on success the decoded data owns a
device buffer.  The available resources are a lookup table from paths to
either an error or decoded data. -/
def SoundData.new (resources : List (String × Except SoundError SoundData))
    (path : String) : Except SoundError SoundData :=
  match resources.lookup path with
  | some r => r
  | none => Except.error SoundError.ResourceNotFound

/-- `Sound::new`: checks the OpenAL context, loads the `SoundData` from
the path (propagating its error with `?`), then delegates to
`Sound::new_with_data`. -/
def Sound.new (resources : List (String × Except SoundError SoundData))
    (st : ALAlloc) (path : String) : Except SoundError Sound × ALAlloc :=
  if st.ctxValid then
    match SoundData.new resources path with
    | Except.error e => (Except.error e, st)
    | Except.ok sd => Sound.new_with_data st sd
  else (Except.error SoundError.InvalidOpenALContext, st)

/-- A source currently in the Playing transport state, used to instantiate
theorems at a concrete input. -/
def srcPlaying : ALSource :=
  { srcState := State.Playing, sampleOffset := 7, looping := 0, buffer := 3,
    gain := 1.0 }

/-- A concrete Sound whose data reports 100000 frames at 44100 Hz. -/
def sndW : Sound :=
  { al_source := 1, sound_data := { buffer := 3, sndinfo := ⟨100000, 44100⟩ } }

/-- A concrete Sound whose data reports a zero sample rate. -/
def sndZero : Sound :=
  { al_source := 2, sound_data := { buffer := 4, sndinfo := ⟨100, 0⟩ } }

/-- A concrete replacement SoundData. -/
def sdNew : SoundData := { buffer := 9, sndinfo := ⟨500, 22050⟩ }

/-- A device allocation state with a valid context, no valid buffers, and
no source allocated yet. -/
def stC1 : ALAlloc :=
  { ctxValid := true, validBuffers := [], allocated := [], nextId := 0,
    errorFlag := none }

/-- A SoundData whose buffer id the device of `stC1` rejects. -/
def sdC1 : SoundData := { buffer := 5, sndinfo := ⟨100, 44100⟩ }

/-- C1: `Sound::new_with_data` called with a valid context on data whose
buffer the device rejects returns an error synchronously, but the device
source generated by `al::alGenSources` remains allocated afterwards: the
error branch does not delete it, contradicting the specification that a
construction error leaves no device resource allocated. -/
theorem new_with_data_error_leaves_source_allocated :
    (Sound.new_with_data stC1 sdC1).1 =
      Except.error (SoundError.InternalOpenALError "AL_INVALID_VALUE") ∧
    ((Sound.new_with_data stC1 sdC1).2).allocated = [0] ∧
    stC1.allocated = [] :=
  ⟨rfl, rfl, rfl⟩

/-- C2: pausing and then playing resumes at the position where audio
stopped: the offset observed through `get_offset` does not move across the
pause and is not reset by the resume, for every source and every context
validity. -/
theorem pause_then_play_preserves_offset :
    ∀ (ctx : Bool) (s : ALSource),
      Sound.get_offset ctx (Sound.pause ctx s) = Sound.get_offset ctx s ∧
      Sound.get_offset ctx (Sound.play ctx (Sound.pause ctx s)) =
        Sound.get_offset ctx (Sound.pause ctx s) := by
  intro ctx s
  cases ctx <;>
    simp [Sound.get_offset, Sound.pause, Sound.play, alSourcePause, alSourcePlay]

/-- C3: stopping and then playing restarts playback from the beginning:
immediately after the play following a stop, `get_offset` reads 0, never a
position carried over from before the stop. -/
theorem stop_then_play_restarts_at_zero :
    ∀ (ctx : Bool) (s : ALSource),
      Sound.get_offset ctx (Sound.play ctx (Sound.stop ctx s)) = 0 ∧
      Sound.get_offset ctx (Sound.stop ctx s) = 0 := by
  intro ctx s
  cases ctx <;>
    simp [Sound.get_offset, Sound.stop, Sound.play, alSourceStop, alSourcePlay]

/-- C4: calling play on a Sound whose current transport state is Playing
is a no-op: the device source state, including the playback position, is
unchanged by the call. -/
theorem play_noop_when_playing :
    ∀ (s : ALSource), Sound.get_state true s = State.Playing →
      Sound.play true s = s := by
  intro s h
  simp only [Sound.get_state, if_true] at h
  simp [Sound.play, alSourcePlay, h]

/-- Witness for C4 at a concrete Playing source. -/
theorem play_noop_when_playing_witness :
    Sound.get_state true srcPlaying = State.Playing ∧
    Sound.play true srcPlaying = srcPlaying :=
  ⟨rfl, play_noop_when_playing srcPlaying rfl⟩

/-- C5: with an invalid device context every public operation of Sound
no-ops rather than crashing: each setter returns without touching the
device source, `set_datas` changes neither the Sound nor the source, and
each getter returns its documented default (`get_state` returns Initial,
`get_offset` returns 0, `is_looping` returns false without reaching its
panicking branch, `get_volume` returns 0.0, `is_playing` returns
false). -/
theorem invalid_context_operations_default :
    ∀ (s : ALSource) (snd : Sound) (sd : SoundData) (offset : Int) (b : Bool)
      (v : Float),
      Sound.play false s = s ∧ Sound.pause false s = s ∧
      Sound.stop false s = s ∧ Sound.set_offset false s offset = s ∧
      Sound.set_looping false s b = s ∧ Sound.set_volume false s v = s ∧
      Sound.set_datas false snd s sd = (snd, s) ∧
      Sound.get_state false s = State.Initial ∧
      Sound.get_offset false s = 0 ∧
      Sound.is_looping false s = some false ∧
      Sound.get_volume false s = 0.0 ∧
      Sound.is_playing false s = false := by
  intro s snd sd offset b v
  exact ⟨rfl, rfl, rfl, rfl, rfl, rfl, rfl, rfl, rfl, rfl, rfl, rfl⟩

/-- C6: `is_playing` returns true exactly when `get_state` returns
Playing, and returns false for every other transport state. -/
theorem is_playing_iff_state_playing :
    ∀ (ctx : Bool) (s : ALSource),
      (Sound.is_playing ctx s = true ↔
        Sound.get_state ctx s = State.Playing) ∧
      (Sound.get_state ctx s ≠ State.Playing →
        Sound.is_playing ctx s = false) := by
  intro ctx s
  cases h : Sound.get_state ctx s <;> simp [Sound.is_playing, h]

/-- Witness for C6 at a concrete Playing source. -/
theorem is_playing_iff_state_playing_witness :
    Sound.is_playing true srcPlaying = true :=
  (is_playing_iff_state_playing true srcPlaying).1.mpr rfl

/-- C8: with a valid device context, `set_looping b` followed by
`is_looping` reads back `b` (and never reaches the panicking branch): the
Loop Flag round-trips through the device. -/
theorem set_looping_roundtrip :
    ∀ (s : ALSource) (b : Bool),
      Sound.is_looping true (Sound.set_looping true s b) = some b := by
  intro s b
  cases b <;>
    simp [Sound.is_looping, Sound.set_looping, ALC_TRUE, ALC_FALSE]

/-- C9: while a Sound is playing, `set_datas` is a complete no-op: neither
the stored `sound_data` nor the device buffer binding changes; when the
Sound is not playing the replacement takes effect on both. -/
theorem set_datas_noop_when_playing :
    ∀ (snd : Sound) (src : ALSource) (sd : SoundData),
      (Sound.is_playing true src = true →
        Sound.set_datas true snd src sd = (snd, src)) ∧
      (Sound.is_playing true src = false →
        Sound.set_datas true snd src sd =
          ({ snd with sound_data := sd }, { src with buffer := sd.buffer })) := by
  intro snd src sd
  constructor <;> intro h <;> simp [Sound.set_datas, h]

/-- Witness for C9: a concrete playing source keeps its Sound and buffer
across `set_datas`. -/
theorem set_datas_noop_when_playing_witness :
    Sound.is_playing true srcPlaying = true ∧
    Sound.set_datas true sndW srcPlaying sdNew = (sndW, srcPlaying) :=
  ⟨rfl, (set_datas_noop_when_playing sndW srcPlaying sdNew).1 rfl⟩

/-- The `u64` cast is the identity on values representable in the source
ranges (non-negative and below `2 ^ 64`). -/
theorem u64cast_eq_toNat (x : Int) (h0 : 0 ≤ x) (h1 : x < 2 ^ 64) :
    u64cast x = x.toNat := by
  unfold u64cast
  rw [Int.emod_eq_of_lt h0 h1]

/-- C7: for a Sound whose decoder reports frame count F (a non-negative
`i64`) and sample rate R (a positive `i32`), `get_duration` returns
exactly floor(F / R) whole seconds and floor((F mod R) * 10^9 / R)
nanoseconds — the wrap of the `u64` multiplication and the `as u32` cast
never truncate, and `Duration::new` carries nothing.  Moreover the result
depends only on the Sound's data, not on any controller or playback
state. -/
theorem get_duration_formula :
    (∀ (snd : Sound),
      0 ≤ snd.sound_data.sndinfo.frames →
      snd.sound_data.sndinfo.frames < 2 ^ 63 →
      0 < snd.sound_data.sndinfo.samplerate →
      snd.sound_data.sndinfo.samplerate < 2 ^ 31 →
      Sound.get_duration snd =
        some (RustDuration.mk
          (snd.sound_data.sndinfo.frames.toNat /
            snd.sound_data.sndinfo.samplerate.toNat)
          (snd.sound_data.sndinfo.frames.toNat %
            snd.sound_data.sndinfo.samplerate.toNat * 1000000000 /
            snd.sound_data.sndinfo.samplerate.toNat))) ∧
    (∀ (s1 s2 : Sound), s1.sound_data = s2.sound_data →
      Sound.get_duration s1 = Sound.get_duration s2) := by
  constructor
  · intro snd hF0 hF1 hR0 hR1
    have hF : u64cast snd.sound_data.sndinfo.frames =
        snd.sound_data.sndinfo.frames.toNat :=
      u64cast_eq_toNat _ hF0 (hF1.trans (by norm_num))
    have hR : u64cast snd.sound_data.sndinfo.samplerate =
        snd.sound_data.sndinfo.samplerate.toNat :=
      u64cast_eq_toNat _ hR0.le (hR1.trans (by norm_num))
    have hR31 : snd.sound_data.sndinfo.samplerate < 2147483648 :=
      hR1.trans_le (by norm_num)
    have hRpos : 0 < snd.sound_data.sndinfo.samplerate.toNat := by omega
    have hRlt : snd.sound_data.sndinfo.samplerate.toNat < 2147483648 := by
      omega
    set F := snd.sound_data.sndinfo.frames.toNat with hFdef
    set R := snd.sound_data.sndinfo.samplerate.toNat with hRdef
    have hmod : F % R < R := Nat.mod_lt _ hRpos
    have hmul : F % R * 1000000000 < R * 1000000000 :=
      (Nat.mul_lt_mul_right (by norm_num)).mpr hmod
    have hmul64 : F % R * 1000000000 < 2 ^ 64 :=
      hmul.trans_le
        ((Nat.mul_le_mul_right 1000000000 hRlt.le).trans (by norm_num))
    have hdiv : F % R * 1000000000 / R < 1000000000 :=
      (Nat.div_lt_iff_lt_mul hRpos).mpr
        (by calc F % R * 1000000000 < R * 1000000000 := hmul
              _ = 1000000000 * R := Nat.mul_comm _ _)
    have hdiv32 : F % R * 1000000000 / R < 2 ^ 32 :=
      hdiv.trans (by norm_num)
    simp only [Sound.get_duration, hF, hR, ← hFdef, ← hRdef]
    rw [if_neg (Nat.pos_iff_ne_zero.mp hRpos)]
    rw [Nat.mod_eq_of_lt hmul64, Nat.mod_eq_of_lt hdiv32]
    unfold durationNew
    rw [Nat.div_eq_of_lt hdiv, Nat.mod_eq_of_lt hdiv, Nat.add_zero]
  · intro s1 s2 h
    simp [Sound.get_duration, h]

/-- Witness for C7: a Sound with 100000 frames at 44100 Hz has duration
2 s and 267573696 ns. -/
theorem get_duration_formula_witness :
    (0 : Int) < 44100 ∧
    Sound.get_duration sndW = some (RustDuration.mk 2 267573696) := by
  refine ⟨by norm_num, ?_⟩
  have h := get_duration_formula.1 sndW (by decide) (by decide)
    (by decide) (by decide)
  exact h.trans (by decide)

/-- C10: `get_duration` divides by the reported sample rate with no zero
guard.  Under the precondition that the sample rate is strictly positive
(and in `i32` range) both divisions are well-defined and `get_duration`
returns a value; when the sample rate is zero the division panics
(modelled as `none`), so the precondition cannot be dropped. -/
theorem get_duration_total_iff_samplerate_pos :
    ∀ (snd : Sound),
      (0 < snd.sound_data.sndinfo.samplerate →
        snd.sound_data.sndinfo.samplerate < 2 ^ 31 →
        (Sound.get_duration snd).isSome = true) ∧
      (snd.sound_data.sndinfo.samplerate = 0 →
        Sound.get_duration snd = none) := by
  intro snd
  constructor
  · intro hR0 hR1
    have hR : u64cast snd.sound_data.sndinfo.samplerate =
        snd.sound_data.sndinfo.samplerate.toNat :=
      u64cast_eq_toNat _ hR0.le (hR1.trans (by norm_num))
    have hRpos : 0 < snd.sound_data.sndinfo.samplerate.toNat := by omega
    simp only [Sound.get_duration, hR]
    rw [if_neg (Nat.pos_iff_ne_zero.mp hRpos)]
    rfl
  · intro h
    simp [Sound.get_duration, u64cast, h]

/-- Witness for C10: `get_duration` succeeds at 44100 Hz and hits the
division-by-zero panic at sample rate 0. -/
theorem get_duration_total_iff_samplerate_pos_witness :
    (0 : Int) < 44100 ∧
    (Sound.get_duration sndW).isSome = true ∧
    Sound.get_duration sndZero = none :=
  ⟨by norm_num,
   (get_duration_total_iff_samplerate_pos sndW).1 (by decide) (by decide),
   (get_duration_total_iff_samplerate_pos sndZero).2 rfl⟩

end Ears
